import Mathlib

/-!
Verification of the natural-language specification of the device_ptr
repository (src/device_ptr.h) against a shallow embedding of the code.

The repository is a single header defining a pointer wrapper
device_ptr<T> (the primary template, lines 44-225) together with a
specialization for void / const void pointees (lines 227-320).  Both
classes hold exactly one data member, a raw pointer named ptr.

Modelling choices:
- A native address (the value stored in a raw pointer such as T* or
  void*) is modelled as an integer, Addr := Int; the null pointer value
  is the address 0.  For a fixed element type T, native pointer
  arithmetic on T* advances the address one element at a time, so
  addresses are measured in element units of the fixed instantiation.
- device_ptr<T> is modelled by the structure device_ptr indexed by a
  phantom Boolean recording whether T is const-qualified: the claims
  never distinguish element types beyond their const qualification, and
  the class stores the same single address either way.
- The void / const void specialization is modelled by device_ptr_void.
- Member functions that mutate *this (operator+= and operator-=) are
  modelled as functions returning the post-state of *this.  The const
  binary operators operator+ and operator- copy *this into a local tmp,
  mutate only tmp and return it; they are modelled as functions
  returning the pair (returned value, post-state of *this), where the
  post-state is the unmodified receiver because the member is const and
  the mutation is applied to the local copy.
- Whether a constructor or conversion operator participates in implicit
  conversion is a compile-time fact of its declaration (presence or
  absence of the explicit keyword, and the SFINAE gates deciding which
  instantiations exist).  These declaration-level facts are transcribed
  from the source as Boolean and list constants, one per declaration,
  each documented with the source lines it transcribes.
-/

/-- Model of a native address value, the contents of a raw pointer such
as T* or void*.  The null pointer value is the address 0.  Addresses are
measured in element units of the fixed instantiation T. -/
abbrev Addr : Type := Int

/-- Native raw-pointer addition on T*: p + n advances the address by n
elements (unit = sizeof(T), i.e. one element unit of the model). -/
def rawAdd (p : Addr) (n : Int) : Addr := p + n

/-- Native raw-pointer subtraction on T*: p - n moves the address back
by n elements. -/
def rawSub (p : Addr) (n : Int) : Addr := p - n

/-- Model of std::swap on the raw pointer members (used by the friend
swap functions, lines 211-215 and 306-310): exchanges the two values. -/
def stdSwapAddr (a b : Addr) : Addr × Addr := (b, a)

/-- Model of the primary template device_ptr<T> (src/device_ptr.h lines
44-225).  The class holds a single data member T* ptr (line 224).  The
phantom index isConst records whether the element type T is
const-qualified; the claims distinguish instantiations only by const
qualification, and the stored state is one address either way. -/
structure device_ptr (isConst : Bool) where
  ptr : Addr

/-- Model of the specialization device_ptr<Void> for void and const void
pointees (lines 227-320).  It holds a single data member void* ptr
(line 319). -/
structure device_ptr_void where
  ptr : Addr

/-- Constructor device_ptr(decltype(nullptr)) (line 60): initializes ptr
with the null pointer value, modelled as address 0. -/
def device_ptr.ofNullptr {c : Bool} : device_ptr c := ⟨0⟩

/-- Constructor explicit device_ptr(T* ptr) (line 62): wraps the given
raw address. -/
def device_ptr.ofRaw {c : Bool} (p : Addr) : device_ptr c := ⟨p⟩

/-- Free function T* get(device_ptr x) (lines 217-221): returns the
wrapped raw pointer x.ptr. -/
def device_ptr.get {c : Bool} (x : device_ptr c) : Addr := x.ptr

/-- Constructor device_ptr(decltype(nullptr)) of the void specialization
(line 237). -/
def device_ptr_void.ofNullptr : device_ptr_void := ⟨0⟩

/-- Constructor explicit device_ptr(void* ptr) of the void
specialization (line 239). -/
def device_ptr_void.ofRaw (p : Addr) : device_ptr_void := ⟨p⟩

/-- Free function void* get(device_ptr x) of the void specialization
(lines 312-316). -/
def device_ptr_void.get (x : device_ptr_void) : Addr := x.ptr

/-- operator+=(std::ptrdiff_t n) (lines 104-109): applies ptr += n,
native pointer arithmetic on the member.  The function returns the
post-state of *this. -/
def device_ptr.addAssign {c : Bool} (x : device_ptr c) (n : Int) : device_ptr c :=
  ⟨rawAdd x.ptr n⟩

/-- operator-=(std::ptrdiff_t n) (lines 129-134): applies ptr -= n.
Returns the post-state of *this. -/
def device_ptr.subAssign {c : Bool} (x : device_ptr c) (n : Int) : device_ptr c :=
  ⟨rawSub x.ptr n⟩

/-- operator+(std::ptrdiff_t n) const (lines 110-115): copies *this into
a local tmp, applies tmp += n and returns tmp.  Modelled as the pair
(returned value, post-state of *this); the member is const and the
mutation is applied only to the local copy, so the post-state of *this
is the receiver unchanged. -/
def device_ptr.addOp {c : Bool} (x : device_ptr c) (n : Int) :
    device_ptr c × device_ptr c :=
  let tmp := x
  (tmp.addAssign n, x)

/-- operator-(std::ptrdiff_t n) const (lines 135-140): copies *this into
a local tmp, applies tmp -= n and returns tmp.  Modelled like addOp. -/
def device_ptr.subOp {c : Bool} (x : device_ptr c) (n : Int) :
    device_ptr c × device_ptr c :=
  let tmp := x
  (tmp.subAssign n, x)

/-- The value of the binary expression x + n (the first component of
addOp). -/
def device_ptr.add {c : Bool} (x : device_ptr c) (n : Int) : device_ptr c :=
  (x.addOp n).1

/-- The value of the binary expression x - n (the first component of
subOp). -/
def device_ptr.sub {c : Bool} (x : device_ptr c) (n : Int) : device_ptr c :=
  (x.subOp n).1

/-- friend operator==(device_ptr x, device_ptr y) (lines 148-151):
returns x.ptr == y.ptr. -/
def device_ptr.eqOp {c : Bool} (x y : device_ptr c) : Bool := x.ptr == y.ptr

/-- friend operator!=(device_ptr x, device_ptr y) (lines 153-156):
returns x.ptr != y.ptr. -/
def device_ptr.neOp {c : Bool} (x y : device_ptr c) : Bool := x.ptr != y.ptr

/-- friend operator<(device_ptr x, device_ptr y) (lines 158-161):
returns x.ptr < y.ptr, native address comparison. -/
def device_ptr.ltOp {c : Bool} (x y : device_ptr c) : Bool := decide (x.ptr < y.ptr)

/-- friend operator<=(device_ptr x, device_ptr y) (lines 163-166):
returns x.ptr <= y.ptr. -/
def device_ptr.leOp {c : Bool} (x y : device_ptr c) : Bool := decide (x.ptr ≤ y.ptr)

/-- friend operator>(device_ptr x, device_ptr y) (lines 168-171):
returns x.ptr > y.ptr. -/
def device_ptr.gtOp {c : Bool} (x y : device_ptr c) : Bool := decide (x.ptr > y.ptr)

/-- friend operator>=(device_ptr x, device_ptr y) (lines 173-176):
returns x.ptr >= y.ptr. -/
def device_ptr.geOp {c : Bool} (x y : device_ptr c) : Bool := decide (x.ptr ≥ y.ptr)

/-- Conversion operator device_ptr<Void>() const (lines 178-183):
returns device_ptr<Void>\x7bptr\x7d, i.e. the void specialization built
from the wrapped address through its explicit void* constructor; the
native T*-to-void* conversion preserves the address. -/
def device_ptr.toOpaque {c : Bool} (x : device_ptr c) : device_ptr_void :=
  device_ptr_void.ofRaw x.ptr

/-- Constructor explicit device_ptr(device_ptr<Void> dp) (lines 68-70),
the type-recovery path from the void specialization.  As written the
member initializer ptr\x7bdp.ptr\x7d initializes the T* member from the
void* member with no cast; C++ has no implicit void*-to-T* conversion,
so the constructor body is ill-formed and fails to compile whenever it
is instantiated.  This definition models the evident intent of the
declaration (the initializer with the missing static_cast<T*> added),
which copies the wrapped address unchanged. -/
def device_ptr.ofOpaque {c : Bool} (dp : device_ptr_void) : device_ptr c :=
  ⟨dp.ptr⟩

/-- Conversion operator explicit operator Integral() const (lines
184-189): performs (Integral)ptr, a reinterpret_cast of the address to
an integral type.  The cast is only well-formed for integral types large
enough to hold a pointer value, for which it yields the numeric value of
the address; with the null pointer value modelled as address 0, a null
pointer converts to 0. -/
def device_ptr.toIntegral {c : Bool} (x : device_ptr c) : Int := x.ptr

/-- Conversion operator explicit operator bool() const (lines 190-194):
returns ptr contextually converted to bool, i.e. true exactly when the
wrapped pointer is not the null pointer value. -/
def device_ptr.toBool {c : Bool} (x : device_ptr c) : Bool := x.ptr != 0

/-- Qualifier-widening constructor device_ptr(device_ptr<std \x3a\x3a
remove_const_t<T>> dp) (lines 64-66): SFINAE-enabled only when T is
const-qualified; initializes the const T* member from the T* member of
the argument, a native qualification conversion preserving the
address. -/
def device_ptr.widen (dp : device_ptr false) : device_ptr true := ⟨dp.ptr⟩

/-- friend swap(device_ptr& x, device_ptr& y) (lines 211-215): applies
std::swap to the two ptr members.  Modelled as the pair of post-states
(post-state of x, post-state of y). -/
def device_ptr.swapOp {c : Bool} (x y : device_ptr c) :
    device_ptr c × device_ptr c :=
  ⟨⟨(stdSwapAddr x.ptr y.ptr).1⟩, ⟨(stdSwapAddr x.ptr y.ptr).2⟩⟩

/-- friend operator==(device_ptr x, device_ptr y) of the void
specialization (lines 242-245). -/
def device_ptr_void.eqOp (x y : device_ptr_void) : Bool := x.ptr == y.ptr

/-- Conversion operator explicit operator Integral() const of the void
specialization (lines 272-277): performs (Integral)ptr, as in the
primary template. -/
def device_ptr_void.toIntegral (x : device_ptr_void) : Int := x.ptr

/-- Conversion operator explicit operator bool() const of the void
specialization (lines 278-282). -/
def device_ptr_void.toBool (x : device_ptr_void) : Bool := x.ptr != 0

/-- friend swap(device_ptr& x, device_ptr& y) of the void specialization
(lines 306-310): applies std::swap to the two ptr members.  Modelled as
the pair of post-states. -/
def device_ptr_void.swapOp (x y : device_ptr_void) :
    device_ptr_void × device_ptr_void :=
  ⟨⟨(stdSwapAddr x.ptr y.ptr).1⟩, ⟨(stdSwapAddr x.ptr y.ptr).2⟩⟩

/-- Declaration-level fact: whether the conversion operator
operator device_ptr<Void>() const (lines 178-183), the erasure direction
from device_ptr<T> to device_ptr<void>, is declared with the explicit
keyword.  The source declares it without explicit, so it participates in
implicit conversion. -/
def typedToOpaqueIsExplicit : Bool := false

/-- Declaration-level fact: whether the constructor
device_ptr(device_ptr<Void> dp) (lines 68-70), the recovery direction
from device_ptr<void> to device_ptr<T>, is declared with the explicit
keyword.  The source declares it explicit. -/
def opaqueToTypedIsExplicit : Bool := true

/-- Declaration-level fact: whether the qualifier-widening constructor
(lines 64-66) is declared with the explicit keyword.  The source
declares it without explicit, so device_ptr<T> converts to
device_ptr<const T> implicitly. -/
def qualifierWidenIsExplicit : Bool := false

/-- The cross-qualification converting constructors declared between the
instantiations device_ptr<T> and device_ptr<const T>, as pairs
(source is const, target is const), transcribed from the source.  The
only such declaration is the widening constructor at lines 64-66, whose
SFINAE gate std::is_const<T>::value restricts it to const-qualified
targets sourced from the non-const instantiation; no declaration
converts device_ptr<const T> to device_ptr<T>. -/
def qualifierConversions : List (Bool × Bool) := [(false, true)]

/-- Claim C1: for every raw address p of type T*, constructing a
device_ptr<T> from p through the explicit raw-pointer constructor and
then applying the free accessor get returns p again. -/
theorem C1_raw_roundtrip (c : Bool) (p : Addr) :
    (device_ptr.ofRaw p : device_ptr c).get = p := rfl

/-- Claim C2, the intended semantics at the failing input: the recovery
constructor (lines 68-70) is ill-formed as written (it initializes the
T* member from a void* with no cast), so the erase-then-recover round
trip fails to compile; under the evident intended semantics modelled by
ofOpaque, erasing any device_ptr to device_ptr_void and recovering it
yields a pointer that operator== reports equal to the original, in
particular at the failing input address 42. -/
theorem C2_roundtrip_intended :
    (∀ (c : Bool) (d : device_ptr c), (device_ptr.ofOpaque d.toOpaque : device_ptr c).eqOp d = true) ∧
    (device_ptr.ofOpaque (device_ptr.toOpaque (device_ptr.ofRaw 42 : device_ptr false)) : device_ptr false).eqOp (device_ptr.ofRaw 42) = true := by
  constructor
  · intro c d
    simp [device_ptr.ofOpaque, device_ptr.toOpaque, device_ptr_void.ofRaw, device_ptr.eqOp]
  · decide

/-- Claim C3 as stated is false on the code: the claim requires both
directions between device_ptr<T> and device_ptr<void> to be explicit,
but the erasure operator (lines 178-183) is declared without the
explicit keyword and therefore converts implicitly. -/
theorem C3_counterexample :
    ¬ (typedToOpaqueIsExplicit = true ∧ opaqueToTypedIsExplicit = true) := by
  decide

/-- Claim C3 amended: recovery from device_ptr<void> to device_ptr<T>
is gated by an explicit constructor, while erasure from device_ptr<T>
to device_ptr<void> is an implicit conversion (the conversion operator
is not declared explicit). -/
theorem C3_amended_explicitness :
    opaqueToTypedIsExplicit = true ∧ typedToOpaqueIsExplicit = false := by
  decide

/-- Claim C4: for every pair of device_ptr<T> values, exactly one of
x < y, x == y, x > y holds, and all six comparison operators order the
pointers exactly as the wrapped addresses returned by get are
ordered. -/
theorem C4_total_order (c : Bool) (x y : device_ptr c) :
    ((x.ltOp y = true ∧ x.eqOp y = false ∧ x.gtOp y = false) ∨
     (x.ltOp y = false ∧ x.eqOp y = true ∧ x.gtOp y = false) ∨
     (x.ltOp y = false ∧ x.eqOp y = false ∧ x.gtOp y = true)) ∧
    (x.eqOp y = true ↔ x.get = y.get) ∧
    (x.neOp y = true ↔ x.get ≠ y.get) ∧
    (x.ltOp y = true ↔ x.get < y.get) ∧
    (x.leOp y = true ↔ x.get ≤ y.get) ∧
    (x.gtOp y = true ↔ y.get < x.get) ∧
    (x.geOp y = true ↔ y.get ≤ x.get) := by
  simp only [device_ptr.ltOp, device_ptr.eqOp, device_ptr.neOp, device_ptr.leOp,
    device_ptr.gtOp, device_ptr.geOp, device_ptr.get, decide_eq_true_eq,
    decide_eq_false_iff_not, beq_iff_eq, beq_eq_false_iff_ne, bne_iff_ne,
    gt_iff_lt, ge_iff_le, ne_eq, not_lt]
  refine ⟨?_, trivial, trivial, trivial, trivial, trivial, trivial⟩
  rcases lt_trichotomy x.ptr y.ptr with h | h | h
  · exact Or.inl ⟨h, ne_of_lt h, le_of_lt h⟩
  · exact Or.inr (Or.inl ⟨le_of_eq h.symm, h, le_of_eq h⟩)
  · exact Or.inr (Or.inr ⟨le_of_lt h, ne_of_gt h, h⟩)

/-- Claim C5: for every device_ptr<T> value x and integral offset n, the
wrapped address of x + n is the wrapped address of x advanced by n
elements of native pointer arithmetic, and (x + n) - n compares equal to
x under operator==. -/
theorem C5_arithmetic (c : Bool) (x : device_ptr c) (n : Int) :
    (x.add n).get = rawAdd x.get n ∧ ((x.add n).sub n).eqOp x = true := by
  constructor
  · rfl
  · simp [device_ptr.add, device_ptr.sub, device_ptr.addOp, device_ptr.subOp,
      device_ptr.addAssign, device_ptr.subAssign, rawAdd, rawSub, device_ptr.eqOp]

/-- Claim C6: the qualifier-widening conversion from device_ptr<T> to
device_ptr<const T> preserves the wrapped address and its constructor is
not declared explicit (the conversion is implicit), while the source
declares no converting constructor in the reverse direction from
device_ptr<const T> to device_ptr<T>, so the reverse conversion is
rejected at compile time. -/
theorem C6_qualifier_widening (dp : device_ptr false) :
    dp.widen.get = dp.get ∧
    qualifierWidenIsExplicit = false ∧
    (false, true) ∈ qualifierConversions ∧
    (true, false) ∉ qualifierConversions := by
  refine ⟨rfl, rfl, ?_, ?_⟩ <;> decide

/-- Claim C7: a device_ptr constructed from the null token converts to
boolean false under the explicit bool conversion, and a device_ptr
constructed from a non-null raw address converts to boolean true. -/
theorem C7_bool_conversion (c : Bool) (p : Addr) (h : p ≠ 0) :
    (device_ptr.ofNullptr : device_ptr c).toBool = false ∧
    (device_ptr.ofRaw p : device_ptr c).toBool = true := by
  constructor
  · rfl
  · simp [device_ptr.ofRaw, device_ptr.toBool, h]

/-- Witness for C7 at the concrete non-null address 42 on the non-const
instantiation. -/
theorem C7_bool_conversion_witness :
    (device_ptr.ofNullptr : device_ptr false).toBool = false ∧
    (device_ptr.ofRaw 42 : device_ptr false).toBool = true :=
  C7_bool_conversion false 42 (by decide)

/-- Claim C8: for every device_ptr<T> and every device_ptr<void> value,
the explicit conversion to an integral type yields the numeric value of
the wrapped address, and a null-valued pointer of either kind converts
to the integral value zero. -/
theorem C8_integral_conversion (c : Bool) (x : device_ptr c) (v : device_ptr_void) :
    x.toIntegral = x.get ∧
    v.toIntegral = v.get ∧
    (device_ptr.ofNullptr : device_ptr c).toIntegral = 0 ∧
    device_ptr_void.ofNullptr.toIntegral = 0 :=
  ⟨rfl, rfl, rfl, rfl⟩

/-- Claim C9: for every pair of device_ptr<T> values and every pair of
device_ptr<void> values, after swap the wrapped address of the first is
the pre-swap wrapped address of the second and conversely. -/
theorem C9_swap (c : Bool) (a b : device_ptr c) (u v : device_ptr_void) :
    (a.swapOp b).1.get = b.get ∧ (a.swapOp b).2.get = a.get ∧
    (u.swapOp v).1.get = v.get ∧ (u.swapOp v).2.get = u.get :=
  ⟨rfl, rfl, rfl, rfl⟩

/-- Claim C10: the binary operators x + n and x - n are const members
that copy *this into a local tmp and mutate only the copy: the returned
value wraps the advanced address while the post-state of x itself is
unchanged. -/
theorem C10_binary_frame (c : Bool) (x : device_ptr c) (n : Int) :
    (x.addOp n).1.get = rawAdd x.get n ∧ (x.addOp n).2 = x ∧
    (x.subOp n).1.get = rawSub x.get n ∧ (x.subOp n).2 = x :=
  ⟨rfl, rfl, rfl, rfl⟩
